import Mathlib

/-!
Shallow embedding of qlog (src/include/qlog.hpp), a single-header C++
leveled-logging class, together with theorems checking the specification's
claims against it.

Modelling choices:
* severity levels are `unsigned long` in the source; every operation on them
  is a comparison or a copy, so they are embedded as `Nat` (no arithmetic that
  could overflow occurs).
* the output streams are embedded as the string of bytes written so far.  The
  logger writes to two streams: the sink `*_output` chosen at construction
  (default `std::cerr`) and the process's `std::cout` (used by the non-const
  insertion operator).  They are modelled as two distinct buffers in `World`,
  together with a count of flushes of the sink (`std::endl` both writes a
  newline and flushes).
* the wall-clock time read by `logger::timestamp` (via `gettimeofday` and
  `gmtime_r`) is an input of the embedding: the broken-down UTC time `tm` and
  the microsecond field `tv_usec` are passed to the operations that read the
  clock.
-/

namespace qlog

/-- `severity_t` (qlog.hpp 18–35): a log severity with a numeric `level`
(`unsigned long` in the source) and a display `name`. -/
structure severity_t where
  level : Nat
  name : String
deriving Repr, DecidableEq

/-- `qlog::none` (qlog.hpp 41): verbosity sentinel meant to suppress all
messages. -/
def none : severity_t := ⟨0, "NONE"⟩

/-- `qlog::fatal` (qlog.hpp 47). -/
def fatal : severity_t := ⟨100, "FATAL"⟩

/-- `qlog::error` (qlog.hpp 53). -/
def error : severity_t := ⟨200, "ERROR"⟩

/-- `qlog::warn` (qlog.hpp 58). -/
def warn : severity_t := ⟨300, "WARN"⟩

/-- `qlog::info` (qlog.hpp 63). -/
def info : severity_t := ⟨400, "INFO"⟩

/-- `qlog::debug` (qlog.hpp 68). -/
def debug : severity_t := ⟨500, "DEBUG"⟩

/-- `qlog::all` (qlog.hpp 75): verbosity sentinel meant to include all
messages. -/
def all : severity_t := ⟨999, "ALL"⟩

/-- Broken-down UTC time as produced by `gmtime_r`, fields as in C's
`struct tm`: `tm_mon` is 0-based, `tm_year` counts years since 1900. -/
structure tm where
  tm_sec : Nat
  tm_min : Nat
  tm_hour : Nat
  tm_mday : Nat
  tm_mon : Nat
  tm_year : Nat
deriving Repr, DecidableEq

/-- Two-digit zero padding, as `strftime` performs for `%m %d %H %M %S`. -/
def pad2 (n : Nat) : String := if n < 10 then "0" ++ toString n else toString n

/-- The `strftime(time_str, maxsize, "%Y-%m-%dT%H:%M:%S", &time_info)` call in
`logger::timestamp` (qlog.hpp 186). -/
def strftimeYmdHMS (t : tm) : String :=
  toString (t.tm_year + 1900) ++ "-" ++ pad2 (t.tm_mon + 1) ++ "-" ++ pad2 t.tm_mday
    ++ "T" ++ pad2 t.tm_hour ++ ":" ++ pad2 t.tm_min ++ ":" ++ pad2 t.tm_sec

/-- `logger::timestamp` (qlog.hpp 173–193): formats the broken-down UTC time
with `strftime("%Y-%m-%dT%H:%M:%S")`, then appends the milliseconds and the
`Z` with `sprintf(time_str, "%s.%dZ", time_str, t.tv_usec / 1000)`.  The `%d`
conversion prints `tv_usec / 1000` in plain decimal, with no zero padding,
which `toString` reproduces. -/
def timestamp (t : tm) (tv_usec : Nat) : String :=
  strftimeYmdHMS t ++ "." ++ toString (tv_usec / 1000) ++ "Z"

/-- The streams the logger writes to: `sink` is the bytes written to the
configured `*_output` stream, `sinkFlushes` counts its flushes, and `cout` is
the bytes the logger wrote to `std::cout`. -/
structure World where
  sink : String
  sinkFlushes : Nat
  cout : String
deriving Repr, DecidableEq

/-- The `logger` object's fields (qlog.hpp 195–204): `_output` is the stored
stream pointer, modelled as an abstract stream identity fixed at
construction; `_severity` is the current message severity level and
`_verbosity` the configured verbosity level. -/
structure logger where
  _output : Nat
  _severity : Nat
  _verbosity : Nat
deriving Repr, DecidableEq

/-- Stream identity of `std::cerr`, the default sink. -/
def cerrStream : Nat := 0

/-- `logger(severity_t const& v)` (qlog.hpp 85–86): sink is `std::cerr`,
`_severity` starts at `all.level`, `_verbosity` at `v.level`. -/
def logger.ctorV (v : severity_t) : logger :=
  ⟨cerrStream, all.level, v.level⟩

/-- `logger(std::ostream& o = std::cerr, severity_t const& v = all)`
(qlog.hpp 93–95). -/
def logger.ctor (o : Nat) (v : severity_t) : logger :=
  ⟨o, all.level, v.level⟩

/-- `logger::set_severity` (qlog.hpp 164–167): stores the new level in
`_severity`. -/
def logger.set_severity (l : logger) (s : severity_t) : logger :=
  { l with _severity := s.level }

/-- `logger::operator()(severity_t const& l)` (qlog.hpp 115–121): calls
`set_severity(l)`, then, if `_severity <= _verbosity`, writes
`std::endl << timestamp() << " [" << l.name << "] "` to the sink.
`std::endl` writes a newline and flushes the sink.  `t` and `usec` are the
wall-clock reading consumed by the inner `timestamp()` call. -/
def logger.opParen (l : logger) (w : World) (t : tm) (usec : Nat)
    (s : severity_t) : logger × World :=
  let l' := l.set_severity s
  if l'._severity ≤ l'._verbosity then
    (l', { w with
            sink := w.sink ++ "\n" ++ timestamp t usec ++ " [" ++ s.name ++ "] ",
            sinkFlushes := w.sinkFlushes + 1 })
  else
    (l', w)

/-- `template<typename T> logger& operator<<(const T& o)` (qlog.hpp 128–134):
if `_severity <= _verbosity`, writes the value to `*_output`; otherwise does
nothing.  `v` is the value's textual representation under the stream's
default formatting. -/
def logger.appendConst (l : logger) (w : World) (v : String) : logger × World :=
  if l._severity ≤ l._verbosity then
    (l, { w with sink := w.sink ++ v })
  else
    (l, w)

/-- `template<typename T> logger& operator<<(T& o)` (qlog.hpp 141–147): if
`_severity <= _verbosity`, writes the value to `std::cout` — not to
`*_output`; otherwise does nothing. -/
def logger.appendLval (l : logger) (w : World) (v : String) : logger × World :=
  if l._severity ≤ l._verbosity then
    (l, { w with cout := w.cout ++ v })
  else
    (l, w)

/-- An `std::ostream` manipulator insertable into the logger: `std::endl`
writes a newline and flushes, `std::flush` flushes. -/
inductive manip where
  | endl
  | flush
deriving Repr, DecidableEq

/-- `logger& operator<<(std::ostream& (*p)(std::ostream&))` (qlog.hpp
154–157): applies the manipulator to `*_output` directly, with no severity
check. -/
def logger.appendManip (l : logger) (w : World) (p : manip) : logger × World :=
  match p with
  | .endl => (l, { w with sink := w.sink ++ "\n", sinkFlushes := w.sinkFlushes + 1 })
  | .flush => (l, { w with sinkFlushes := w.sinkFlushes + 1 })

/-- `logger::~logger` (qlog.hpp 100–103): `(*_output) << std::endl` — writes
a newline to the sink and flushes it, with no condition. -/
def logger.dtor (_l : logger) (w : World) : World :=
  { w with sink := w.sink ++ "\n", sinkFlushes := w.sinkFlushes + 1 }

/-- One append call in a chain: either insertion-operator overload. -/
inductive appendEv where
  | const (v : String)
  | lval (v : String)
deriving Repr, DecidableEq

/-- A chain of append calls, as produced by `log << a << b << ...`. -/
def logger.runAppends (l : logger) (w : World) : List appendEv → logger × World
  | [] => (l, w)
  | .const v :: es => ((l.appendConst w v).1).runAppends (l.appendConst w v).2 es
  | .lval v :: es => ((l.appendLval w v).1).runAppends (l.appendLval w v).2 es

/-- Modelled from the spec: the timestamp wire format the spec claims,
`YYYY-MM-DDTHH:MM:SS.mmmZ` — four year digits, two-digit month, day, hour,
minute, second, a dot, exactly three millisecond digits, and a literal `Z`. -/
def specTimestampFormat (s : String) : Bool :=
  match s.toList with
  | [y1, y2, y3, y4, '-', m1, m2, '-', d1, d2, 'T',
     h1, h2, ':', n1, n2, ':', s1, s2, '.', a, b, c, 'Z'] =>
      [y1, y2, y3, y4, m1, m2, d1, d2, h1, h2, n1, n2, s1, s2, a, b, c].all Char.isDigit
  | _ => false

/-- A nonempty string appended to a buffer changes the buffer. -/
theorem append_ne_self (s v : String) (hv : v ≠ "") : s ++ v ≠ s := by
  intro h
  apply hv
  have h2 := congrArg String.length h
  rw [String.length_append] at h2
  have hv0 : v.length = 0 := by omega
  cases v with
  | mk data =>
    cases data with
    | nil => rfl
    | cons c cs => simp [String.length] at hv0

/-- A logger whose current severity exceeds its verbosity appends nothing,
whatever chain of insertion calls follows. -/
theorem runAppends_suppressed (l : logger) (w : World) (evs : List appendEv)
    (h : ¬ l._severity ≤ l._verbosity) : l.runAppends w evs = (l, w) := by
  induction evs with
  | nil => rfl
  | cons e es ih =>
    cases e with
    | const v =>
      simp only [logger.runAppends, logger.appendConst, if_neg h]
      exact ih
    | lval v =>
      simp only [logger.runAppends, logger.appendLval, if_neg h]
      exact ih

/-- C1: a value passed to the const insertion operator `operator<<(const T&)`
is written to the configured sink if and only if the current message severity
level is at most the configured verbosity level; when written, it is appended
verbatim. -/
theorem appendConst_writes_iff (l : logger) (w : World) (v : String)
    (hv : v ≠ "") :
    ((l.appendConst w v).2.sink ≠ w.sink ↔ l._severity ≤ l._verbosity) ∧
    (l._severity ≤ l._verbosity → (l.appendConst w v).2.sink = w.sink ++ v) := by
  unfold logger.appendConst
  by_cases h : l._severity ≤ l._verbosity
  · rw [if_pos h]
    exact ⟨⟨fun _ => h, fun _ => append_ne_self w.sink v hv⟩, fun _ => rfl⟩
  · rw [if_neg h]
    exact ⟨⟨fun hne => absurd rfl hne, fun hg => absurd hg h⟩,
           fun hg => absurd hg h⟩

/-- Witness for C1: a logger under verbosity all marked at severity error,
appending "a" to an empty sink. -/
theorem appendConst_writes_iff_witness :
    ((((logger.ctor 0 all).set_severity error).appendConst ⟨"", 0, ""⟩ "a").2.sink
        ≠ (World.mk "" 0 "").sink ↔
      ((logger.ctor 0 all).set_severity error)._severity ≤
        ((logger.ctor 0 all).set_severity error)._verbosity) ∧
    (((logger.ctor 0 all).set_severity error)._severity ≤
        ((logger.ctor 0 all).set_severity error)._verbosity →
      (((logger.ctor 0 all).set_severity error).appendConst ⟨"", 0, ""⟩ "a").2.sink
        = (World.mk "" 0 "").sink ++ "a") :=
  appendConst_writes_iff ((logger.ctor 0 all).set_severity error) ⟨"", 0, ""⟩
    "a" (by decide)

/-- C2: for every severity whose level exceeds the configured verbosity, the
mark writes nothing, and every chain of append calls made after the mark
leaves the world (sink bytes, sink flushes, std::cout bytes) entirely
unchanged — no I/O happens at all. -/
theorem suppressed_mark_no_io (l : logger) (w : World) (t : tm) (u : Nat)
    (s : severity_t) (evs : List appendEv) (hs : l._verbosity < s.level) :
    (l.opParen w t u s).2 = w ∧
    ((l.opParen w t u s).1.runAppends (l.opParen w t u s).2 evs
      = l.opParen w t u s) := by
  have hgate : ¬ (l.set_severity s)._severity ≤ (l.set_severity s)._verbosity := by
    simp only [logger.set_severity]
    omega
  simp only [logger.opParen, if_neg hgate]
  exact ⟨by trivial, runAppends_suppressed _ _ _ hgate⟩

/-- Witness for C2: verbosity error, mark(info), then a chain of a const and
an lvalue append. -/
theorem suppressed_mark_no_io_witness :
    (((logger.ctor 0 error).opParen ⟨"", 0, ""⟩ ⟨5, 4, 3, 2, 0, 124⟩ 0 info).2
      = World.mk "" 0 "") ∧
    (((logger.ctor 0 error).opParen ⟨"", 0, ""⟩ ⟨5, 4, 3, 2, 0, 124⟩ 0 info).1.runAppends
        ((logger.ctor 0 error).opParen ⟨"", 0, ""⟩ ⟨5, 4, 3, 2, 0, 124⟩ 0 info).2
        [.const "b", .lval "c"]
      = (logger.ctor 0 error).opParen ⟨"", 0, ""⟩ ⟨5, 4, 3, 2, 0, 124⟩ 0 info) :=
  suppressed_mark_no_io (logger.ctor 0 error) ⟨"", 0, ""⟩ ⟨5, 4, 3, 2, 0, 124⟩
    0 info [.const "b", .lval "c"] (by decide)

/-- C3: evaluation at the failing input — with current severity error under
verbosity all (within the threshold), appending a non-const lvalue writes its
text to std::cout and nothing to the configured sink, contrary to the claim
that append writes to the stream supplied at construction. -/
theorem appendLval_bypasses_sink :
    ((((logger.ctor 0 all).set_severity error).appendLval ⟨"H", 0, ""⟩ "x").2
      = { sink := "H", sinkFlushes := 0, cout := "x" }) ∧
    error.level ≤ (logger.ctor 0 all)._verbosity := by decide

/-- C4: evaluation at the failing input — at a wall-clock time whose
millisecond value is 5 (tv_usec = 5000), `logger::timestamp` produces
"2024-01-02T03:04:05.5Z": the milliseconds are not zero-padded to three
digits, so the emitted header does not match the claimed
YYYY-MM-DDTHH:MM:SS.mmmZ format (which the correctly padded string would
match). -/
theorem timestamp_ms_not_padded :
    timestamp ⟨5, 4, 3, 2, 0, 124⟩ 5000 = "2024-01-02T03:04:05.5Z" ∧
    specTimestampFormat "2024-01-02T03:04:05.5Z" = false ∧
    specTimestampFormat "2024-01-02T03:04:05.005Z" = true ∧
    (((logger.ctor 0 all).opParen ⟨"", 0, ""⟩ ⟨5, 4, 3, 2, 0, 124⟩ 5000 error).2.sink
      = "\n2024-01-02T03:04:05.5Z [ERROR] ") := by decide

/-- C5: destroying the logger writes a newline to the sink and flushes it,
for every logger state — any current severity and any configured verbosity,
including a suppressed current severity — and leaves std::cout alone. -/
theorem dtor_newline_flush (l : logger) (w : World) :
    (l.dtor w).sink = w.sink ++ "\n" ∧
    (l.dtor w).sinkFlushes = w.sinkFlushes + 1 ∧
    (l.dtor w).cout = w.cout :=
  ⟨rfl, rfl, rfl⟩

/-- C6: counterexample — a logger freshly constructed with verbosity error
does initialize its current severity to the all sentinel (999), but a value
appended before the first mark is then NOT written to the sink: 999 exceeds
the verbosity 200, so the append is suppressed and the sink stays empty. -/
theorem fresh_logger_suppressed_cex :
    ((logger.ctor 0 error)._severity = all.level) ∧
    (((logger.ctor 0 error).appendConst ⟨"", 0, ""⟩ "x").2.sink = "") := by decide

/-- C6 (amended): every fresh logger initializes the current severity to the
all sentinel (999); under this revision's gate, a value appended before the
first mark is written to the sink exactly when the configured verbosity level
is at least all.level — so it is written under the default verbosity (all)
and suppressed under every lower verbosity. -/
theorem fresh_logger_severity_all (o : Nat) (v : severity_t) (w : World)
    (x : String) :
    (logger.ctor o v)._severity = all.level ∧
    ((logger.ctor o v).appendConst w x).2.sink
      = (if all.level ≤ v.level then w.sink ++ x else w.sink) ∧
    ((logger.ctor o all).appendConst w x).2.sink = w.sink ++ x := by
  refine ⟨rfl, ?_, ?_⟩
  · by_cases h : all.level ≤ v.level
    · rw [if_pos h]
      have h' : (logger.ctor o v)._severity ≤ (logger.ctor o v)._verbosity := h
      simp only [logger.appendConst, if_pos h']
    · rw [if_neg h]
      have h' : ¬ (logger.ctor o v)._severity ≤ (logger.ctor o v)._verbosity := h
      simp only [logger.appendConst, if_neg h']
  · have h' : (logger.ctor o all)._severity ≤ (logger.ctor o all)._verbosity :=
      Nat.le.refl
    simp only [logger.appendConst, if_pos h']

/-- C7: manipulator insertion acts on the configured sink with no severity
check: its effect on the streams is the same for every logger state, std::endl
appends a newline to the sink and flushes it, std::flush flushes it, and the
logger's fields and std::cout are untouched. -/
theorem manip_unconditional (l l' : logger) (w : World) (p : manip) :
    (l.appendManip w p).1 = l ∧
    (l.appendManip w p).2 = (l'.appendManip w p).2 ∧
    l.appendManip w .endl
      = (l, { w with sink := w.sink ++ "\n", sinkFlushes := w.sinkFlushes + 1 }) ∧
    l.appendManip w .flush = (l, { w with sinkFlushes := w.sinkFlushes + 1 }) := by
  cases p <;> exact ⟨rfl, rfl, rfl, rfl⟩

/-- C8: counterexample — with the verbosity set to the suppress-everything
sentinel (none, level 0), marking a caller-defined severity of level 0 still
writes a header to the sink: the sink does not stay empty, so "no mark header
is ever written for any severity" fails. -/
theorem none_verbosity_emits_cex :
    (((logger.ctor 0 qlog.none).opParen ⟨"", 0, ""⟩ ⟨5, 4, 3, 2, 0, 124⟩ 0
        ⟨0, "CUSTOM"⟩).2.sink ≠ "") := by decide

/-- C8 (amended): with verbosity none, mark writes no header and a subsequent
append writes nothing, for every severity of positive level (which covers all
the predefined non-sentinel severities); with verbosity all, the header and
the appended value are written for every severity of level at most 999, which
covers every predefined severity but not caller-defined levels above 999. -/
theorem sentinel_verbosity_amended (w : World) (t : tm) (u : Nat)
    (s : severity_t) (v : String) :
    (0 < s.level →
      ((logger.ctor 0 qlog.none).opParen w t u s).2 = w ∧
      (((logger.ctor 0 qlog.none).opParen w t u s).1.appendConst w v).2 = w) ∧
    (s.level ≤ all.level →
      ((logger.ctor 0 all).opParen w t u s).2.sink
        = w.sink ++ "\n" ++ timestamp t u ++ " [" ++ s.name ++ "] " ∧
      (((logger.ctor 0 all).opParen w t u s).1.appendConst
          ((logger.ctor 0 all).opParen w t u s).2 v).2.sink
        = ((logger.ctor 0 all).opParen w t u s).2.sink ++ v) := by
  constructor
  · intro h
    have hgate : ¬ ((logger.ctor 0 qlog.none).set_severity s)._severity ≤
        ((logger.ctor 0 qlog.none).set_severity s)._verbosity := by
      simp only [logger.ctor, logger.set_severity, qlog.none]
      omega
    simp only [logger.opParen, if_neg hgate]
    refine ⟨by trivial, ?_⟩
    simp only [logger.appendConst, if_neg hgate]
  · intro h
    have hgate : ((logger.ctor 0 all).set_severity s)._severity ≤
        ((logger.ctor 0 all).set_severity s)._verbosity := by
      simp only [logger.ctor, logger.set_severity, all] at h ⊢
      omega
    simp only [logger.opParen, if_pos hgate]
    refine ⟨by simp [String.append_assoc], ?_⟩
    simp only [logger.appendConst, if_pos hgate]

/-- Witness for C8 (amended): instantiated at severity error. -/
theorem sentinel_verbosity_amended_witness :
    (((logger.ctor 0 qlog.none).opParen ⟨"", 0, ""⟩ ⟨5, 4, 3, 2, 0, 124⟩ 0 error).2
      = World.mk "" 0 "") ∧
    ((((logger.ctor 0 qlog.none).opParen ⟨"", 0, ""⟩ ⟨5, 4, 3, 2, 0, 124⟩ 0
        error).1.appendConst ⟨"", 0, ""⟩ "a").2 = World.mk "" 0 "") ∧
    (((logger.ctor 0 all).opParen ⟨"", 0, ""⟩ ⟨5, 4, 3, 2, 0, 124⟩ 0 error).2.sink
      = (World.mk "" 0 "").sink ++ "\n" ++ timestamp ⟨5, 4, 3, 2, 0, 124⟩ 0
        ++ " [" ++ error.name ++ "] ") ∧
    ((((logger.ctor 0 all).opParen ⟨"", 0, ""⟩ ⟨5, 4, 3, 2, 0, 124⟩ 0
        error).1.appendConst
        ((logger.ctor 0 all).opParen ⟨"", 0, ""⟩ ⟨5, 4, 3, 2, 0, 124⟩ 0 error).2
        "a").2.sink
      = ((logger.ctor 0 all).opParen ⟨"", 0, ""⟩ ⟨5, 4, 3, 2, 0, 124⟩ 0
          error).2.sink ++ "a") := by
  have h := sentinel_verbosity_amended (World.mk "" 0 "") ⟨5, 4, 3, 2, 0, 124⟩
    0 error "a"
  exact ⟨(h.1 (by decide)).1, (h.1 (by decide)).2,
         (h.2 (by decide)).1, (h.2 (by decide)).2⟩

/-- C9: no operation changes the stored sink pointer or the configured
verbosity; only the current severity may change.  mark, both insertion
overloads, manipulator insertion and set_severity all preserve `_output` and
`_verbosity`, and the insertion overloads return the logger unchanged. -/
theorem ops_preserve_output_verbosity (l : logger) (w : World) (t : tm)
    (u : Nat) (s : severity_t) (v : String) (p : manip) :
    ((l.opParen w t u s).1._output = l._output ∧
      (l.opParen w t u s).1._verbosity = l._verbosity) ∧
    (l.appendConst w v).1 = l ∧
    (l.appendLval w v).1 = l ∧
    (l.appendManip w p).1 = l ∧
    ((l.set_severity s)._output = l._output ∧
      (l.set_severity s)._verbosity = l._verbosity) := by
  refine ⟨?_, ?_, ?_, ?_, ⟨rfl, rfl⟩⟩
  · simp only [logger.opParen]
    split <;> exact ⟨by trivial, by trivial⟩
  · simp only [logger.appendConst]
    split <;> rfl
  · simp only [logger.appendLval]
    split <;> rfl
  · cases p <;> rfl

/-- C10: when the current severity is within the configured verbosity, the
non-const lvalue insertion operator writes the value's text to std::cout and
leaves the configured sink and its flush count untouched. -/
theorem appendLval_targets_cout (l : logger) (w : World) (v : String)
    (h : l._severity ≤ l._verbosity) :
    (l.appendLval w v).2.cout = w.cout ++ v ∧
    (l.appendLval w v).2.sink = w.sink ∧
    (l.appendLval w v).2.sinkFlushes = w.sinkFlushes := by
  unfold logger.appendLval
  rw [if_pos h]
  exact ⟨rfl, rfl, rfl⟩

/-- Witness for C10: severity error under verbosity all, sink holding "H". -/
theorem appendLval_targets_cout_witness :
    ((((logger.ctor 0 all).set_severity error).appendLval ⟨"H", 0, ""⟩ "x").2.cout
      = (World.mk "H" 0 "").cout ++ "x") ∧
    ((((logger.ctor 0 all).set_severity error).appendLval ⟨"H", 0, ""⟩ "x").2.sink
      = (World.mk "H" 0 "").sink) ∧
    ((((logger.ctor 0 all).set_severity error).appendLval ⟨"H", 0, ""⟩ "x").2.sinkFlushes
      = (World.mk "H" 0 "").sinkFlushes) :=
  appendLval_targets_cout ((logger.ctor 0 all).set_severity error)
    ⟨"H", 0, ""⟩ "x" (by decide)

end qlog
